import Mathlib

/-!
Verification of `src/utils/location_helper.py` (window_weather).

The module resolves a U.S. ZIP code to NWS grid metadata in two hops:
ZIP to coordinates via Zippopotam, coordinates to grid metadata via the
NWS points endpoint.  We shallowly embed the Python code: JSON values
parsed by `response.json()` become the inductive `JValue`, Python
exceptions become the explicit `PyError` record (with the `from exc`
exception chain recorded in the `cause` field), numbers are modelled as
rationals, and the network is an oracle `Request -> Except PyError JValue`
supplied as a parameter to each operation.
-/

namespace WindowWeather

/-- A JSON value as produced by `response.json()` in Python: `None`,
booleans, ints, floats (modelled as rationals), strings, lists, dicts. -/
inductive JValue where
  | null : JValue
  | bool (b : Bool) : JValue
  | intv (n : ℤ) : JValue
  | floatv (q : ℚ) : JValue
  | str (s : String) : JValue
  | arr (elems : List JValue) : JValue
  | obj (fields : List (String × JValue)) : JValue

/-- A raised Python exception: its class name, its message, and the
chained exception installed by `raise ... from exc` (class name and
message of the cause), if any.  Messages of builtin exceptions are
abbreviated (no quotes around offending values) but kept distinct. -/
structure PyError where
  kind : String
  msg : String
  cause : Option (String × String)
  deriving Repr, BEq, DecidableEq

/-- `v is None` for a JSON-derived value (JSON `null` parses to `None`). -/
def isNull : JValue → Bool
  | .null => true
  | _ => false

/-- Python truthiness (`bool(v)`) of a JSON-derived value. -/
def truthy : JValue → Bool
  | .null => false
  | .bool b => b
  | .intv n => n != 0
  | .floatv q => q != 0
  | .str s => s != ""
  | .arr xs => !xs.isEmpty
  | .obj fs => !fs.isEmpty

/-- Key lookup in the assoc list backing a JSON object.  `json.loads`
builds a `dict`, so a duplicated key keeps its last occurrence. -/
def lookupLast : List (String × JValue) → String → Option JValue
  | [], _ => none
  | (k, v) :: rest, key =>
      match lookupLast rest key with
      | some r => some r
      | none => if k = key then some v else none

/-- `dict.get(key)` on a JSON object: the stored value, or `None` when
the key is absent (JSON `null` and an absent key both give `None`). -/
def lookupField (fields : List (String × JValue)) (key : String) : JValue :=
  (lookupLast fields key).getD .null

/-- `v.get(key)`: dictionaries answer, every other value raises
`AttributeError` (the code calls `.get` on whatever `response.json()`
returned). -/
def pyGet : JValue → String → Except PyError JValue
  | .obj fs, key => .ok (lookupField fs key)
  | _, _ => .error ⟨"AttributeError", "object has no attribute get", none⟩

/-- `v[key]` with a string key: dict lookup (`KeyError` when absent);
any non-dict raises `TypeError`. -/
def pySubscript (v : JValue) (key : String) : Except PyError JValue :=
  match v with
  | .obj fs =>
      match lookupLast fs key with
      | some r => .ok r
      | none => .error ⟨"KeyError", key, none⟩
  | _ => .error ⟨"TypeError", "value is not subscriptable with a string key", none⟩

/-- `v[0]`: head of a list, first character of a string, `KeyError` on a
dict (JSON dict keys are strings, never the int 0), `TypeError` otherwise;
used on a value already known to be truthy, so the empty cases are dead. -/
def index0 : JValue → Except PyError JValue
  | .arr [] => .error ⟨"IndexError", "list index out of range", none⟩
  | .arr (x :: _) => .ok x
  | .str s =>
      match s.toList with
      | [] => .error ⟨"IndexError", "string index out of range", none⟩
      | c :: _ => .ok (.str (String.mk [c]))
  | .obj _ => .error ⟨"KeyError", "0", none⟩
  | _ => .error ⟨"TypeError", "value is not subscriptable", none⟩

/-- Digits of `n` in base 10, most significant first; `fuel` bounds the
recursion and any call with `n < fuel` is exact. -/
def natDigitsAux : Nat → Nat → List Char
  | 0, _ => []
  | fuel + 1, n =>
      if n < 10 then [Nat.digitChar n]
      else natDigitsAux fuel (n / 10) ++ [Nat.digitChar (n % 10)]

/-- Decimal rendering of a natural number, as `str` prints it. -/
def natToDec (n : Nat) : String := String.mk (natDigitsAux (n + 1) n)

/-- Decimal rendering of an integer, as `str` prints it. -/
def intToDec (n : ℤ) : String :=
  (if n < 0 then "-" else "") ++ natToDec n.natAbs

/-- Rendering of a float modelled as a rational.  Python prints the
shortest round-tripping decimal of the binary double; that notion does
not exist for exact rationals, so we print `num/den`.  The development
relies only on this string being non-empty. -/
def ratToDec (q : ℚ) : String :=
  intToDec q.num ++ "/" ++ natToDec q.den

mutual

/-- `str(v)` for a JSON-derived value.  Total: `str` never raises here.
Python would use `repr` (quoting strings) for elements nested inside
lists and dicts; we reuse `pyStr`, and rely only on non-emptiness. -/
def pyStr : JValue → String
  | .null => "None"
  | .bool b => if b then "True" else "False"
  | .intv n => intToDec n
  | .floatv q => ratToDec q
  | .str s => s
  | .arr xs => "[" ++ String.intercalate ", " (pyStrList xs) ++ "]"
  | .obj fs => "\x7b" ++ String.intercalate ", " (pyStrFields fs) ++ "\x7d"

/-- `pyStr` mapped over list elements. -/
def pyStrList : List JValue → List String
  | [] => []
  | v :: vs => pyStr v :: pyStrList vs

/-- `pyStr` mapped over dict entries. -/
def pyStrFields : List (String × JValue) → List String
  | [] => []
  | (k, v) :: fs => (k ++ ": " ++ pyStr v) :: pyStrFields fs

end

/-- Value of a digit string, most significant first. -/
def digitsVal : List Char → Nat → Nat
  | [], acc => acc
  | c :: cs, acc => digitsVal cs (acc * 10 + (c.toNat - 48))

/-- A non-empty all-digit run, parsed to a natural number. -/
def parseDigits (cs : List Char) : Option Nat :=
  if !cs.isEmpty && cs.all Char.isDigit then some (digitsVal cs 0) else none

/-- `str.strip()` on the character list of a string. -/
def trimChars (cs : List Char) : List Char :=
  ((cs.dropWhile Char.isWhitespace).reverse.dropWhile Char.isWhitespace).reverse

/-- `int(s)` on a string: optional surrounding whitespace, optional
sign, then a non-empty run of digits.  (CPython also allows underscore
group separators; no claim touches them and they are omitted.) -/
def pyIntParse (s : String) : Option ℤ :=
  match trimChars s.data with
  | '+' :: rest => (parseDigits rest).map fun n => (n : ℤ)
  | '-' :: rest => (parseDigits rest).map fun n => -(n : ℤ)
  | cs => (parseDigits cs).map fun n => (n : ℤ)

/-- Apply an optional leading minus sign. -/
def applySign (neg : Bool) (q : ℚ) : ℚ := if neg then -q else q

/-- Mantissa of a float literal: optional sign, digits with an optional
point, at least one digit overall. -/
def parseMantissa (cs : List Char) : Option ℚ :=
  let signRest : Bool × List Char :=
    match cs with
    | '+' :: rest => (false, rest)
    | '-' :: rest => (true, rest)
    | rest => (false, rest)
  let neg := signRest.1
  let body := signRest.2
  let intPart := body.takeWhile Char.isDigit
  let rest := body.dropWhile Char.isDigit
  match rest with
  | [] =>
      if intPart.isEmpty then none
      else some (applySign neg (digitsVal intPart 0))
  | '.' :: fracPart =>
      if fracPart.all Char.isDigit && !(intPart.isEmpty && fracPart.isEmpty) then
        some (applySign neg
          ((digitsVal intPart 0 : ℚ) + (digitsVal fracPart 0 : ℚ) / (10 : ℚ) ^ fracPart.length))
      else none
  | _ => none

/-- Exponent of a float literal: optional sign, non-empty digits. -/
def parseExp (cs : List Char) : Option ℤ :=
  match cs with
  | '+' :: rest => (parseDigits rest).map fun n => (n : ℤ)
  | '-' :: rest => (parseDigits rest).map fun n => -(n : ℤ)
  | rest => (parseDigits rest).map fun n => (n : ℤ)

/-- Ten to an integer power, as an exact rational. -/
def powTen (e : ℤ) : ℚ :=
  if 0 ≤ e then ((10 : ℚ) ^ e.toNat) else 1 / (10 : ℚ) ^ (-e).toNat

/-- Split at the first exponent marker `e` or `E`, when present. -/
def splitExpAux : List Char → List Char → Option (List Char × List Char)
  | [], _ => none
  | c :: cs, acc =>
      if c = 'e' ∨ c = 'E' then some (acc.reverse, cs) else splitExpAux cs (c :: acc)

/-- `float(s)` on a string: optional whitespace and sign, decimal
mantissa, optional `e`/`E` exponent.  The special values `inf` and
`nan` have no rational counterpart and are treated as out of scope:
claims about the formatter quantify over finite inputs only. -/
def pyFloatParse (s : String) : Option ℚ :=
  let cs := trimChars s.data
  match splitExpAux cs [] with
  | none => parseMantissa cs
  | some me =>
      match parseMantissa me.1, parseExp me.2 with
      | some q, some e => some (q * powTen e)
      | _, _ => none

/-- `float(v)`: identity on numbers, `True`/`False` to 1/0, string
parsing as in `pyFloatParse`, `TypeError` on `None`, lists and dicts. -/
def pyFloat : JValue → Except PyError ℚ
  | .floatv q => .ok q
  | .intv n => .ok (n : ℚ)
  | .bool b => .ok (if b then 1 else 0)
  | .str s =>
      match pyFloatParse s with
      | some q => .ok q
      | none => .error ⟨"ValueError", "could not convert string to float: " ++ s, none⟩
  | .null => .error ⟨"TypeError", "float argument must be a string or a real number, not NoneType", none⟩
  | .arr _ => .error ⟨"TypeError", "float argument must be a string or a real number, not list", none⟩
  | .obj _ => .error ⟨"TypeError", "float argument must be a string or a real number, not dict", none⟩

/-- `int(q)` on a float: truncation toward zero. -/
def truncQ (q : ℚ) : ℤ := if q < 0 then q.ceil else q.floor

/-- `int(v)`: identity on ints, truncation on floats, `True`/`False` to
1/0, integer-literal parsing on strings, `TypeError` otherwise. -/
def pyInt : JValue → Except PyError ℤ
  | .intv n => .ok n
  | .floatv q => .ok (truncQ q)
  | .bool b => .ok (if b then 1 else 0)
  | .str s =>
      match pyIntParse s with
      | some n => .ok n
      | none => .error ⟨"ValueError", "invalid literal for int with base 10: " ++ s, none⟩
  | .null => .error ⟨"TypeError", "int argument must be a string or a real number, not NoneType", none⟩
  | .arr _ => .error ⟨"TypeError", "int argument must be a string or a real number, not list", none⟩
  | .obj _ => .error ⟨"TypeError", "int argument must be a string or a real number, not dict", none⟩

/-- Round to the nearest integer, ties to the even neighbour — the
rounding used by the `.4f` fixed-point format specifier. -/
def roundHalfEven (q : ℚ) : ℤ :=
  let z : ℤ := ⌊q⌋
  let f : ℚ := q - (z : ℚ)
  if f < 1 / 2 then z
  else if 1 / 2 < f then z + 1
  else if z % 2 = 0 then z else z + 1

/-- The four fractional digits of the `.4f` rendering of a value whose
scaled magnitude rounds to `n` (only `n % 10000` matters). -/
def frac4 (n : Nat) : String :=
  String.mk [Nat.digitChar (n / 1000 % 10), Nat.digitChar (n / 100 % 10),
    Nat.digitChar (n / 10 % 10), Nat.digitChar (n % 10)]

/-- Absolute value of a rational, spelled out to keep kernel
reduction available. -/
def absQ (q : ℚ) : ℚ := if q < 0 then -q else q

/-- The Python format `.4f` applied to a (finite) number modelled as a
rational: fixed-point, exactly four fractional digits, round half to
even, sign taken from the input (so a negative value rounding to zero
keeps its minus sign). -/
def formatFixed4 (q : ℚ) : String :=
  let n : Nat := (roundHalfEven (absQ q * 10000)).toNat
  (if q < 0 then "-" else "") ++ natToDec (n / 10000) ++ "." ++ frac4 (n % 10000)

/-- Spec-side shape check, following the words of the specification: a
fixed-point numeral with an optional minus sign, at least one integer
digit, a point and exactly four fractional digits — in particular no
exponent marker, so never scientific notation. -/
def isFixed4Core (cs : List Char) : Bool :=
  let intPart := cs.takeWhile Char.isDigit
  let rest := cs.dropWhile Char.isDigit
  !intPart.isEmpty &&
    match rest with
    | '.' :: fracPart => fracPart.length == 4 && fracPart.all Char.isDigit
    | _ => false

/-- Spec-side shape check on a string, with the optional sign. -/
def isFixed4 (s : String) : Bool :=
  let cs := s.toList
  isFixed4Core (if cs.head? = some '-' then cs.tail else cs)

/-- `Coordinates` dataclass of the source. -/
structure Coordinates where
  latitude : ℚ
  longitude : ℚ
  deriving Repr, DecidableEq

/-- `PointsMetadata` dataclass of the source (the grid metadata). -/
structure PointsMetadata where
  office : String
  grid_x : ℤ
  grid_y : ℤ
  forecast : String
  forecast_hourly : String
  forecast_grid_data : String
  deriving Repr, DecidableEq

/-- An outbound GET request: its URL and the headers attached to it. -/
structure Request where
  url : String
  headers : List (String × String)
  deriving Repr, DecidableEq

/-- The hardcoded fallback identification string of the constructor. -/
def defaultUserAgent : String := "WindowWeather/1.0 (contact: you@example.com)"

/-- Python `a or b` on an optional string: `b` when `a` is `None` or
empty (falsy), otherwise the string. -/
def orStr : Option String → String → String
  | some s, b => if s = "" then b else s
  | none, b => b

/-- The state a `LocationHelper` carries after `__init__`: the session
headers (fixed at construction). -/
structure LocationHelper where
  headers : List (String × String)
  deriving Repr, DecidableEq

/-- `LocationHelper.__init__`: resolve the identification string as
`user_agent or os.getenv("WINDOW_WEATHER_USER_AGENT") or fallback`
(Python `or`, so an empty string also falls through) and fix the
session headers. -/
def LocationHelper.init (user_agent : Option String) (getenv : String → Option String) :
    LocationHelper :=
  let ua := orStr user_agent (orStr (getenv "WINDOW_WEATHER_USER_AGENT") defaultUserAgent)
  ⟨[("User-Agent", ua), ("Accept", "application/geo+json, application/json")]⟩

/-- The network oracle: what each issued request answers.  A
`TransportError` (connection failure, timeout, `raise_for_status`) is an
`.error`; a successful response is its parsed JSON body. -/
def Transport : Type := Request → Except PyError JValue

/-- `LocationHelper._get`: issue a GET with the session headers and
return the parsed JSON body; transport failures propagate. -/
def LocationHelper._get (h : LocationHelper) (t : Transport) (url : String) :
    Except PyError JValue :=
  t ⟨url, h.headers⟩

/-- The geocoding URL built by `zip_to_coordinates`. -/
def zipUrl (zip_code : String) : String :=
  "https://api.zippopotam.us/us/" ++ zip_code

/-- The discovery URL built by `points_metadata`: latitude and
longitude each formatted with `.4f`. -/
def pointsUrl (coords : Coordinates) : String :=
  "https://api.weather.gov/points/" ++ formatFixed4 coords.latitude ++ ","
    ++ formatFixed4 coords.longitude

/-- The error raised when the `places` list is absent or empty. -/
def noPlacesError (zip_code : String) : PyError :=
  ⟨"ValueError", "No places found for ZIP " ++ zip_code, none⟩

/-- The error raised when `places[0]` lacks usable coordinates; chains
the original failure. -/
def invalidCoordError (zip_code : String) (cause : PyError) : PyError :=
  ⟨"ValueError", "Invalid coordinate data for ZIP " ++ zip_code, some (cause.kind, cause.msg)⟩

/-- The error raised when one of the six points fields is missing. -/
def incompletePointsError : PyError :=
  ⟨"ValueError", "Incomplete points metadata from NWS API", none⟩

/-- The try-block of `zip_to_coordinates`:
`float(place0["latitude"])`, then `float(place0["longitude"])`. -/
def parseLatLon (place0 : JValue) : Except PyError (ℚ × ℚ) :=
  match pySubscript place0 "latitude" with
  | .error e => .error e
  | .ok latRaw =>
      match pyFloat latRaw with
      | .error e => .error e
      | .ok lat =>
          match pySubscript place0 "longitude" with
          | .error e => .error e
          | .ok lonRaw =>
              match pyFloat lonRaw with
              | .error e => .error e
              | .ok lon => .ok (lat, lon)

/-- Body of `zip_to_coordinates` after the GET returned `data`. -/
def coords_from_data (zip_code : String) (data : JValue) : Except PyError Coordinates :=
  match pyGet data "places" with
  | .error e => .error e
  | .ok placesRaw =>
      let places := if truthy placesRaw then placesRaw else .arr []
      if truthy places then
        match index0 places with
        | .error e => .error e
        | .ok place0 =>
            match parseLatLon place0 with
            | .ok latlon => .ok ⟨latlon.1, latlon.2⟩
            | .error exc =>
                if exc.kind = "KeyError" ∨ exc.kind = "TypeError" ∨ exc.kind = "ValueError" then
                  .error (invalidCoordError zip_code exc)
                else .error exc
      else .error (noPlacesError zip_code)

/-- `LocationHelper.zip_to_coordinates`. -/
def LocationHelper.zip_to_coordinates (h : LocationHelper) (t : Transport)
    (zip_code : String) : Except PyError Coordinates :=
  match h._get t (zipUrl zip_code) with
  | .error e => .error e
  | .ok data => coords_from_data zip_code data

/-- Field extraction of `points_metadata`: read the six entries off the
(already normalised) `properties` value, check presence (`gridX` and
`gridY` by `is not None`, the rest by truthiness), then coerce.  The
`int` coercions sit outside any try-block in the source, so their
failures propagate raw. -/
def points_from_props (properties : JValue) : Except PyError PointsMetadata :=
  match pyGet properties "gridId" with
      | .error e => .error e
      | .ok grid_id =>
          match pyGet properties "gridX" with
          | .error e => .error e
          | .ok grid_x =>
              match pyGet properties "gridY" with
              | .error e => .error e
              | .ok grid_y =>
                  match pyGet properties "forecast" with
                  | .error e => .error e
                  | .ok forecast =>
                      match pyGet properties "forecastHourly" with
                      | .error e => .error e
                      | .ok forecast_hourly =>
                          match pyGet properties "forecastGridData" with
                          | .error e => .error e
                          | .ok forecast_grid_data =>
                              if truthy grid_id && !isNull grid_x && !isNull grid_y
                                  && truthy forecast && truthy forecast_hourly
                                  && truthy forecast_grid_data then
                                match pyInt grid_x with
                                | .error e => .error e
                                | .ok gx =>
                                    match pyInt grid_y with
                                    | .error e => .error e
                                    | .ok gy =>
                                        .ok ⟨pyStr grid_id, gx, gy, pyStr forecast,
                                          pyStr forecast_hourly, pyStr forecast_grid_data⟩
                              else .error incompletePointsError

/-- Body of `points_metadata` after the GET returned `data`: read
`properties` off the response, normalise a falsy value (absent, null,
empty) to an empty dict, and extract the fields. -/
def points_from_data (data : JValue) : Except PyError PointsMetadata :=
  match pyGet data "properties" with
  | .error e => .error e
  | .ok propertiesRaw =>
      points_from_props (if truthy propertiesRaw then propertiesRaw else .obj [])

/-- `LocationHelper.points_metadata`. -/
def LocationHelper.points_metadata (h : LocationHelper) (t : Transport)
    (coords : Coordinates) : Except PyError PointsMetadata :=
  match h._get t (pointsUrl coords) with
  | .error e => .error e
  | .ok data => points_from_data data

/-- `LocationHelper.resolve_zip_to_points`: ZIP to coordinates, then
coordinates to grid metadata. -/
def LocationHelper.resolve_zip_to_points (h : LocationHelper) (t : Transport)
    (zip_code : String) : Except PyError PointsMetadata :=
  match h.zip_to_coordinates t zip_code with
  | .error e => .error e
  | .ok coords => h.points_metadata t coords

/-! ## Auxiliary lemmas -/

theorem digitChar_isDigit (d : Nat) (h : d < 10) : (Nat.digitChar d).isDigit = true := by
  interval_cases d <;> decide

theorem natDigitsAux_ne_nil (fuel n : Nat) : natDigitsAux (fuel + 1) n ≠ [] := by
  unfold natDigitsAux
  split
  · simp
  · simp

theorem natDigitsAux_all_digits :
    ∀ fuel n, n < fuel → (natDigitsAux fuel n).all Char.isDigit = true := by
  intro fuel
  induction fuel with
  | zero => intro n h; omega
  | succ f ih =>
      intro n h
      unfold natDigitsAux
      split
      · next hn => simp [digitChar_isDigit n hn]
      · next hn =>
          have hdiv : n / 10 < n := Nat.div_lt_self (by omega) (by omega)
          have hmod : n % 10 < 10 := Nat.mod_lt _ (by omega)
          simp [List.all_append, ih (n / 10) (by omega), digitChar_isDigit _ hmod]

theorem natToDec_data_ne_nil (n : Nat) : (natToDec n).data ≠ [] :=
  natDigitsAux_ne_nil n n

theorem natToDec_data_all_digits (n : Nat) : (natToDec n).data.all Char.isDigit = true :=
  natDigitsAux_all_digits (n + 1) n (by omega)

theorem append_ne_empty_right (s t : String) (h : t ≠ "") : s ++ t ≠ "" := by
  intro hc
  apply h
  cases s with
  | mk l =>
      cases t with
      | mk m =>
          have hlm : l ++ m = [] := congrArg String.data hc
          have hm : m = [] := (List.append_eq_nil.mp hlm).2
          simp [hm]

theorem mk_ne_empty_of_ne_nil (l : List Char) (h : l ≠ []) : String.mk l ≠ "" := by
  intro hc
  exact h (congrArg String.data hc)

theorem natToDec_ne_empty (n : Nat) : natToDec n ≠ "" :=
  mk_ne_empty_of_ne_nil _ (natDigitsAux_ne_nil n n)

theorem intToDec_ne_empty (n : ℤ) : intToDec n ≠ "" :=
  append_ne_empty_right _ _ (natToDec_ne_empty _)

theorem ratToDec_ne_empty (q : ℚ) : ratToDec q ≠ "" :=
  append_ne_empty_right _ _ (natToDec_ne_empty _)

/-- A truthy value prints as a non-empty string: the success side of
the presence check never yields an empty field. -/
theorem pyStr_ne_empty_of_truthy (v : JValue) (h : truthy v = true) : pyStr v ≠ "" := by
  cases v with
  | null => simp [truthy] at h
  | bool b =>
      cases b
      · simp [truthy] at h
      · simp [pyStr]
  | intv n => exact intToDec_ne_empty n
  | floatv q => exact ratToDec_ne_empty q
  | str s => simpa [truthy] using h
  | arr xs => exact append_ne_empty_right _ _ (by decide)
  | obj fs => exact append_ne_empty_right _ _ (by decide)

theorem takeWhile_digits_dot (fracCs : List Char) :
    ∀ intCs : List Char, intCs.all Char.isDigit = true →
      (intCs ++ '.' :: fracCs).takeWhile Char.isDigit = intCs ∧
      (intCs ++ '.' :: fracCs).dropWhile Char.isDigit = '.' :: fracCs := by
  intro intCs
  induction intCs with
  | nil => intro _; simp [List.takeWhile_cons, List.dropWhile_cons]
  | cons c cs ih =>
      intro hall
      have hc : c.isDigit = true := (List.all_cons .. ▸ hall |> Bool.and_elim_left)
      have hcs : cs.all Char.isDigit = true := (List.all_cons .. ▸ hall |> Bool.and_elim_right)
      have := ih hcs
      simp [List.takeWhile_cons, List.dropWhile_cons, hc, this.1, this.2]

theorem isFixed4Core_of (intCs fracCs : List Char)
    (hne : intCs ≠ []) (hint : intCs.all Char.isDigit = true)
    (hfrac : fracCs.all Char.isDigit = true) (hlen : fracCs.length = 4) :
    isFixed4Core (intCs ++ '.' :: fracCs) = true := by
  have h := takeWhile_digits_dot fracCs intCs hint
  unfold isFixed4Core
  simp only [h.1, h.2]
  simp [hne, hfrac, hlen]

theorem frac4_data (n : Nat) :
    (frac4 n).data = [Nat.digitChar (n / 1000 % 10), Nat.digitChar (n / 100 % 10),
      Nat.digitChar (n / 10 % 10), Nat.digitChar (n % 10)] := rfl

theorem frac4_all_digits (n : Nat) : (frac4 n).data.all Char.isDigit = true := by
  have h1 := digitChar_isDigit (n / 1000 % 10) (Nat.mod_lt _ (by omega))
  have h2 := digitChar_isDigit (n / 100 % 10) (Nat.mod_lt _ (by omega))
  have h3 := digitChar_isDigit (n / 10 % 10) (Nat.mod_lt _ (by omega))
  have h4 := digitChar_isDigit (n % 10) (Nat.mod_lt _ (by omega))
  simp [frac4_data, h1, h2, h3, h4]

theorem formatFixed4_data (q : ℚ) :
    (formatFixed4 q).data =
      (if q < 0 then ['-'] else []) ++
        (natToDec ((roundHalfEven (absQ q * 10000)).toNat / 10000)).data ++
        '.' :: (frac4 ((roundHalfEven (absQ q * 10000)).toNat % 10000)).data := by
  unfold formatFixed4
  by_cases h : q < 0 <;> simp [h]

theorem isFixed4_formatFixed4 (q : ℚ) : isFixed4 (formatFixed4 q) = true := by
  have hshape := formatFixed4_data q
  have hcore : isFixed4Core
      ((natToDec ((roundHalfEven (absQ q * 10000)).toNat / 10000)).data ++
        '.' :: (frac4 ((roundHalfEven (absQ q * 10000)).toNat % 10000)).data) = true :=
    isFixed4Core_of _ _ (natToDec_data_ne_nil _) (natToDec_data_all_digits _)
      (frac4_all_digits _) (by simp [frac4_data])
  unfold isFixed4
  obtain ⟨c, cs, hI⟩ : ∃ c cs,
      (natToDec ((roundHalfEven (absQ q * 10000)).toNat / 10000)).data = c :: cs := by
    cases hl : (natToDec ((roundHalfEven (absQ q * 10000)).toNat / 10000)).data with
    | nil => exact absurd hl (natToDec_data_ne_nil _)
    | cons c cs => exact ⟨c, cs, rfl⟩
  have hcdigit : c.isDigit = true := by
    have := natToDec_data_all_digits ((roundHalfEven (absQ q * 10000)).toNat / 10000)
    rw [hI] at this
    exact (List.all_cons .. ▸ this |> Bool.and_elim_left)
  have hcne : c ≠ '-' := by
    intro hc
    rw [hc] at hcdigit
    exact absurd hcdigit (by decide)
  rw [hI] at hcore
  simp only [List.cons_append] at hcore
  show isFixed4Core _ = true
  rw [show (formatFixed4 q).toList = (formatFixed4 q).data from rfl, hshape, hI]
  by_cases h : q < 0
  · simp only [h, if_true, List.cons_append, List.nil_append, List.head?_cons,
      List.tail_cons]
    simpa using hcore
  · simp only [h, if_false, List.nil_append, List.cons_append, List.head?_cons]
    rw [if_neg (by simp [hcne])]
    exact hcore

theorem pySubscript_error_kind (v : JValue) (key : String) (e : PyError)
    (h : pySubscript v key = .error e) : e.kind = "KeyError" ∨ e.kind = "TypeError" := by
  unfold pySubscript at h
  split at h
  · split at h
    · simp at h
    · injection h with h2
      subst h2
      left
      rfl
  · injection h with h2
    subst h2
    right
    rfl

theorem pyFloat_error_kind (v : JValue) (e : PyError)
    (h : pyFloat v = .error e) : e.kind = "ValueError" ∨ e.kind = "TypeError" := by
  cases v <;> simp only [pyFloat] at h
  case floatv => simp at h
  case intv => simp at h
  case bool => simp at h
  case null =>
    injection h with h2
    subst h2
    right
    rfl
  case str s =>
    split at h
    · simp at h
    · injection h with h2
      subst h2
      left
      rfl
  case arr =>
    injection h with h2
    subst h2
    right
    rfl
  case obj =>
    injection h with h2
    subst h2
    right
    rfl

theorem parseLatLon_error_kind (p0 : JValue) (e : PyError)
    (h : parseLatLon p0 = .error e) :
    e.kind = "KeyError" ∨ e.kind = "TypeError" ∨ e.kind = "ValueError" := by
  unfold parseLatLon at h
  split at h
  · rename_i e1 heq
    injection h with h2
    subst h2
    rcases pySubscript_error_kind _ _ _ heq with hk | hk
    · exact Or.inl hk
    · exact Or.inr (Or.inl hk)
  · split at h
    · rename_i e1 heq
      injection h with h2
      subst h2
      rcases pyFloat_error_kind _ _ heq with hk | hk
      · exact Or.inr (Or.inr hk)
      · exact Or.inr (Or.inl hk)
    · split at h
      · rename_i e1 heq
        injection h with h2
        subst h2
        rcases pySubscript_error_kind _ _ _ heq with hk | hk
        · exact Or.inl hk
        · exact Or.inr (Or.inl hk)
      · split at h
        · rename_i e1 heq
          injection h with h2
          subst h2
          rcases pyFloat_error_kind _ _ heq with hk | hk
          · exact Or.inr (Or.inr hk)
          · exact Or.inr (Or.inl hk)
        · simp at h

/-! ## Claim theorems -/

/-- C2: `resolve_zip_to_points` is pure orchestration: a failure of the
first hop propagates unchanged, and on success of the first hop the
result is exactly `points_metadata` applied to the produced coordinates
(so failures of the second hop also propagate unchanged, and the
success value is the same `PointsMetadata` as manual chaining). -/
theorem resolve_zip_to_points_chains (h : LocationHelper) (t : Transport) (z : String) :
    (∀ e, h.zip_to_coordinates t z = .error e → h.resolve_zip_to_points t z = .error e) ∧
    (∀ coords, h.zip_to_coordinates t z = .ok coords →
      h.resolve_zip_to_points t z = h.points_metadata t coords) := by
  constructor
  · intro e he
    unfold LocationHelper.resolve_zip_to_points
    rw [he]
  · intro coords hc
    unfold LocationHelper.resolve_zip_to_points
    rw [hc]

/-- Witness for C2 at a concrete transport: the first hop fails with a
transport error which the orchestrator returns unchanged, and for a
transport answering the geocoding URL the orchestrator equals the
manual chain. -/
theorem resolve_zip_to_points_chains_witness :
    ((LocationHelper.init none fun _ => none).resolve_zip_to_points
        (fun _ => .error ⟨"TransportError", "connection timed out", none⟩) "10001" =
      .error ⟨"TransportError", "connection timed out", none⟩) ∧
    ((LocationHelper.init none fun _ => none).resolve_zip_to_points
        (fun _ => .ok (.obj [("places", .arr [.obj [("latitude", .str "40.7484"),
          ("longitude", .str "-73.9967")]])])) "10001" =
      (LocationHelper.init none fun _ => none).points_metadata
        (fun _ => .ok (.obj [("places", .arr [.obj [("latitude", .str "40.7484"),
          ("longitude", .str "-73.9967")]])]))
        ⟨40.7484, -73.9967⟩) :=
  ⟨(resolve_zip_to_points_chains _ _ "10001").1 _ rfl,
   (resolve_zip_to_points_chains _ _ "10001").2 ⟨40.7484, -73.9967⟩ (by
      simp [LocationHelper.zip_to_coordinates, LocationHelper._get,
        coords_from_data, pyGet, lookupField, lookupLast, truthy, index0, parseLatLon,
        pySubscript, pyFloat, pyFloatParse, trimChars, splitExpAux, parseMantissa,
        applySign, parseDigits, digitsVal]
      norm_num)⟩

/-- C3: a geocoding response whose `places` entry is absent or an empty
list makes `zip_to_coordinates` fail with the not-found `ValueError`
(never a default or zero coordinate). -/
theorem zip_to_coordinates_no_places (h : LocationHelper) (t : Transport) (z : String)
    (fs : List (String × JValue))
    (hresp : t ⟨zipUrl z, h.headers⟩ = .ok (.obj fs))
    (habsent : lookupField fs "places" = .null ∨ lookupField fs "places" = .arr []) :
    h.zip_to_coordinates t z = .error (noPlacesError z) := by
  unfold LocationHelper.zip_to_coordinates LocationHelper._get
  rw [hresp]
  rcases habsent with h1 | h1 <;> simp [coords_from_data, pyGet, h1, truthy]

/-- Witness for C3: an empty `places` list for ZIP 99999. -/
theorem zip_to_coordinates_no_places_witness :
    (LocationHelper.init none fun _ => none).zip_to_coordinates
        (fun _ => .ok (.obj [("places", .arr [])])) "99999" =
      .error (noPlacesError "99999") :=
  zip_to_coordinates_no_places _ _ "99999" [("places", .arr [])] rfl (Or.inr rfl)

/-- C4: a non-empty `places` whose first element has no usable
latitude/longitude (missing key, wrong type, or unparsable string)
makes `zip_to_coordinates` fail with the invalid-coordinate
`ValueError`, chaining the original parse error. -/
theorem zip_to_coordinates_wraps_invalid (h : LocationHelper) (t : Transport) (z : String)
    (fs : List (String × JValue)) (p0 : JValue) (rest : List JValue) (exc : PyError)
    (hresp : t ⟨zipUrl z, h.headers⟩ = .ok (.obj fs))
    (hplaces : lookupField fs "places" = .arr (p0 :: rest))
    (hparse : parseLatLon p0 = .error exc) :
    h.zip_to_coordinates t z = .error (invalidCoordError z exc) := by
  have hkind := parseLatLon_error_kind p0 exc hparse
  unfold LocationHelper.zip_to_coordinates LocationHelper._get
  rw [hresp]
  rcases hkind with hk | hk | hk <;>
    simp [coords_from_data, pyGet, hplaces, truthy, index0, hparse, hk]

/-- Witness for C4: `places[0]` lacks `latitude`; the raised error
chains the underlying `KeyError`. -/
theorem zip_to_coordinates_wraps_invalid_witness :
    (LocationHelper.init none fun _ => none).zip_to_coordinates
        (fun _ => .ok (.obj [("places", .arr [.obj [("longitude", .str "-73.9967")]])]))
        "10001" =
      .error ⟨"ValueError", "Invalid coordinate data for ZIP 10001",
        some ("KeyError", "latitude")⟩ :=
  zip_to_coordinates_wraps_invalid _ _ "10001"
    [("places", .arr [.obj [("longitude", .str "-73.9967")]])]
    (.obj [("longitude", .str "-73.9967")]) [] ⟨"KeyError", "latitude", none⟩ rfl rfl rfl

/-- C5: with a non-empty `places` whose first element parses, the
result is exactly the first element coerced to numbers; any later
elements are ignored. -/
theorem zip_to_coordinates_first_place (h : LocationHelper) (t : Transport) (z : String)
    (fs : List (String × JValue)) (p0 : JValue) (rest : List JValue) (lat lon : ℚ)
    (hresp : t ⟨zipUrl z, h.headers⟩ = .ok (.obj fs))
    (hplaces : lookupField fs "places" = .arr (p0 :: rest))
    (hparse : parseLatLon p0 = .ok (lat, lon)) :
    h.zip_to_coordinates t z = .ok ⟨lat, lon⟩ := by
  unfold LocationHelper.zip_to_coordinates LocationHelper._get
  rw [hresp]
  simp [coords_from_data, pyGet, hplaces, truthy, index0, hparse]

/-- Witness for C5: the spec example, plus a second place that is
ignored. -/
theorem zip_to_coordinates_first_place_witness :
    (LocationHelper.init none fun _ => none).zip_to_coordinates
        (fun _ => .ok (.obj [("places", .arr
          [.obj [("latitude", .str "40.7484"), ("longitude", .str "-73.9967")],
           .obj [("latitude", .str "0"), ("longitude", .str "0")]])])) "10001" =
      .ok ⟨40.7484, -73.9967⟩ :=
  zip_to_coordinates_first_place _ _ "10001"
    [("places", .arr [.obj [("latitude", .str "40.7484"), ("longitude", .str "-73.9967")],
      .obj [("latitude", .str "0"), ("longitude", .str "0")]])]
    (.obj [("latitude", .str "40.7484"), ("longitude", .str "-73.9967")])
    [.obj [("latitude", .str "0"), ("longitude", .str "0")]] 40.7484 (-73.9967) rfl rfl
    (by
      simp [parseLatLon, pySubscript, lookupLast, pyFloat, pyFloatParse, trimChars,
        splitExpAux, parseMantissa, applySign, parseDigits, digitsVal]
      norm_num)

/-- C6: the discovery request URL embeds latitude and longitude each in
fixed-point notation with exactly four fractional digits (optional
sign, at least one integer digit, a point, four digits, nothing else —
in particular never scientific notation), for every finite input; and
the spec example 40.74843219 renders as 40.7484. -/
theorem points_metadata_url_format :
    (∀ (h : LocationHelper) (t : Transport) (coords : Coordinates),
      h.points_metadata t coords =
        match t ⟨pointsUrl coords, h.headers⟩ with
        | .error e => .error e
        | .ok data => points_from_data data) ∧
    (∀ coords : Coordinates,
      pointsUrl coords = "https://api.weather.gov/points/" ++ formatFixed4 coords.latitude
        ++ "," ++ formatFixed4 coords.longitude) ∧
    (∀ q : ℚ, isFixed4 (formatFixed4 q) = true) ∧
    formatFixed4 (40.74843219 : ℚ) = "40.7484" :=
  ⟨fun _ _ _ => rfl, fun _ => rfl, isFixed4_formatFixed4, by
    have habs : absQ (40.74843219 : ℚ) = 40.74843219 := by
      unfold absQ
      norm_num
    have hrhe : roundHalfEven ((40.74843219 : ℚ) * 10000) = 407484 := by
      unfold roundHalfEven
      have hfl : ⌊(40.74843219 : ℚ) * 10000⌋ = 407484 := by
        norm_num [Int.floor_eq_iff]
      rw [hfl]
      norm_num
    unfold formatFixed4
    rw [habs, hrhe]
    have hneg : ((40.74843219 : ℚ) < 0) = False := by norm_num
    simp only [hneg, if_false]
    rfl⟩

/-- A successful field extraction only ever returns non-empty strings:
each string field is the rendering of a value the check found truthy. -/
theorem points_from_props_ok (P : JValue) (m : PointsMetadata)
    (hm : points_from_props P = .ok m) :
    m.office ≠ "" ∧ m.forecast ≠ "" ∧ m.forecast_hourly ≠ "" ∧
      m.forecast_grid_data ≠ "" := by
  unfold points_from_props at hm
  split at hm
  · simp at hm
  · split at hm
    · simp at hm
    · split at hm
      · simp at hm
      · split at hm
        · simp at hm
        · split at hm
          · simp at hm
          · split at hm
            · simp at hm
            · split at hm
              case isTrue hcond =>
                split at hm
                case h_1 => simp at hm
                case h_2 gx hgx =>
                  split at hm
                  case h_1 => simp at hm
                  case h_2 gy hgy =>
                    injection hm with hm2
                    subst hm2
                    simp only [Bool.and_eq_true] at hcond
                    obtain ⟨⟨⟨⟨⟨hid, _⟩, _⟩, hfc⟩, hfh⟩, hfg⟩ := hcond
                    exact ⟨pyStr_ne_empty_of_truthy _ hid,
                      pyStr_ne_empty_of_truthy _ hfc,
                      pyStr_ne_empty_of_truthy _ hfh,
                      pyStr_ne_empty_of_truthy _ hfg⟩
              case isFalse => simp at hm

/-- C1: every successfully returned metadata value has its four string
fields non-empty (the integer grid fields are present by construction),
and whenever one of the six required entries of the `properties`
object of the response is missing or null, `points_metadata` fails with
the incomplete-metadata `ValueError` instead of returning a partial
value. -/
theorem points_metadata_all_or_nothing :
    (∀ (data : JValue) (m : PointsMetadata), points_from_data data = .ok m →
      m.office ≠ "" ∧ m.forecast ≠ "" ∧ m.forecast_hourly ≠ "" ∧
        m.forecast_grid_data ≠ "") ∧
    (∀ (h : LocationHelper) (t : Transport) (coords : Coordinates)
        (ds props : List (String × JValue)),
      t ⟨pointsUrl coords, h.headers⟩ = .ok (.obj ds) →
      lookupField ds "properties" = .obj props →
      (lookupField props "gridId" = .null ∨ lookupField props "gridX" = .null ∨
        lookupField props "gridY" = .null ∨ lookupField props "forecast" = .null ∨
        lookupField props "forecastHourly" = .null ∨
        lookupField props "forecastGridData" = .null) →
      h.points_metadata t coords = .error incompletePointsError) := by
  constructor
  · intro data m hm
    unfold points_from_data at hm
    split at hm
    · simp at hm
    · exact points_from_props_ok _ m hm
  · intro h t coords ds props hresp hprops hmiss
    have hprop2 : (if truthy (JValue.obj props) then JValue.obj props else JValue.obj []) =
        JValue.obj props := by
      cases props <;> simp [truthy]
    unfold LocationHelper.points_metadata LocationHelper._get
    rw [hresp]
    unfold points_from_data
    simp only [pyGet, hprops]
    rw [hprop2]
    rcases hmiss with h1 | h1 | h1 | h1 | h1 | h1 <;>
      simp [points_from_props, pyGet, h1, truthy, isNull]

/-- Witness for C1: a complete response yields non-empty fields, and
the spec example (all fields present except `forecastHourly`) is
rejected with the incomplete-metadata error. -/
theorem points_metadata_all_or_nothing_witness :
    ((⟨"OKX", 33, 35, "https://a", "https://b", "https://c"⟩ : PointsMetadata).office ≠ "" ∧
      (⟨"OKX", 33, 35, "https://a", "https://b", "https://c"⟩ : PointsMetadata).forecast ≠ "" ∧
      (⟨"OKX", 33, 35, "https://a", "https://b", "https://c"⟩ :
        PointsMetadata).forecast_hourly ≠ "" ∧
      (⟨"OKX", 33, 35, "https://a", "https://b", "https://c"⟩ :
        PointsMetadata).forecast_grid_data ≠ "") ∧
    ((LocationHelper.init none fun _ => none).points_metadata
        (fun _ => .ok (.obj [("properties", .obj
          [("gridId", .str "OKX"), ("gridX", .intv 33), ("gridY", .intv 35),
           ("forecast", .str "https://a"), ("forecastGridData", .str "https://c")])]))
        ⟨0, 0⟩ =
      .error incompletePointsError) :=
  ⟨points_metadata_all_or_nothing.1
      (.obj [("properties", .obj
        [("gridId", .str "OKX"), ("gridX", .intv 33), ("gridY", .intv 35),
         ("forecast", .str "https://a"), ("forecastHourly", .str "https://b"),
         ("forecastGridData", .str "https://c")])])
      ⟨"OKX", 33, 35, "https://a", "https://b", "https://c"⟩ rfl,
   points_metadata_all_or_nothing.2 _ _ ⟨0, 0⟩
      [("properties", .obj
        [("gridId", .str "OKX"), ("gridX", .intv 33), ("gridY", .intv 35),
         ("forecast", .str "https://a"), ("forecastGridData", .str "https://c")])]
      [("gridId", .str "OKX"), ("gridX", .intv 33), ("gridY", .intv 35),
       ("forecast", .str "https://a"), ("forecastGridData", .str "https://c")]
      rfl rfl (Or.inr (Or.inr (Or.inr (Or.inr (Or.inl rfl)))))⟩

/-- C7: a grid index of zero is a present value: with all six fields
present and `gridX = 0`, `points_metadata` succeeds (the presence check
tests `is not None`, not truthiness, on the grid indices). -/
theorem points_metadata_accepts_zero_grid (h : LocationHelper) (t : Transport)
    (coords : Coordinates) (ds : List (String × JValue)) (s1 s2 s3 s4 : String) (gy : ℤ)
    (hresp : t ⟨pointsUrl coords, h.headers⟩ = .ok (.obj ds))
    (hprops : lookupField ds "properties" = .obj
      [("gridId", .str s1), ("gridX", .intv 0), ("gridY", .intv gy),
       ("forecast", .str s2), ("forecastHourly", .str s3), ("forecastGridData", .str s4)])
    (h1 : s1 ≠ "") (h2 : s2 ≠ "") (h3 : s3 ≠ "") (h4 : s4 ≠ "") :
    h.points_metadata t coords = .ok ⟨s1, 0, gy, s2, s3, s4⟩ := by
  unfold LocationHelper.points_metadata LocationHelper._get
  rw [hresp]
  unfold points_from_data
  simp only [pyGet, hprops]
  rw [if_pos (by simp [truthy])]
  simp [points_from_props, pyGet, lookupField, lookupLast, truthy, isNull, pyInt, pyStr,
    h1, h2, h3, h4]

/-- Witness for C7: `gridX = 0` with everything else present is
accepted and the zero index is returned. -/
theorem points_metadata_accepts_zero_grid_witness :
    (LocationHelper.init none fun _ => none).points_metadata
        (fun _ => .ok (.obj [("properties", .obj
          [("gridId", .str "OKX"), ("gridX", .intv 0), ("gridY", .intv 35),
           ("forecast", .str "https://a"), ("forecastHourly", .str "https://b"),
           ("forecastGridData", .str "https://c")])]))
        ⟨0, 0⟩ =
      .ok ⟨"OKX", 0, 35, "https://a", "https://b", "https://c"⟩ :=
  points_metadata_accepts_zero_grid _ _ ⟨0, 0⟩
    [("properties", .obj
      [("gridId", .str "OKX"), ("gridX", .intv 0), ("gridY", .intv 35),
       ("forecast", .str "https://a"), ("forecastHourly", .str "https://b"),
       ("forecastGridData", .str "https://c")])]
    "OKX" "https://a" "https://b" "https://c" 35 rfl rfl
    (by decide) (by decide) (by decide) (by decide)

/-- C8 counterexample: all six fields present but `gridX` a non-numeric
string.  The claim says the failure is an `InvalidDataError` wrapping
the coercion failure; the code instead lets the raw `int()` error
escape: the raised error is the bare coercion `ValueError`, with no
chained cause and without the incomplete-metadata message. -/
theorem points_metadata_coercion_unwrapped_cex :
    (LocationHelper.init none fun _ => none).points_metadata
        (fun _ => .ok (.obj [("properties", .obj
          [("gridId", .str "OKX"), ("gridX", .str "abc"), ("gridY", .intv 35),
           ("forecast", .str "https://a"), ("forecastHourly", .str "https://b"),
           ("forecastGridData", .str "https://c")])]))
        ⟨0, 0⟩ =
      .error ⟨"ValueError", "invalid literal for int with base 10: abc", none⟩ := rfl

/-- C8 amended: when a present, non-null `gridX` cannot be coerced to
an integer, `points_metadata` propagates the raw coercion error
unchanged — no wrapping, no chained cause added. -/
theorem points_metadata_coercion_unwrapped (h : LocationHelper) (t : Transport)
    (coords : Coordinates) (ds : List (String × JValue)) (s1 s2 s3 s4 : String)
    (gx gy : JValue) (e : PyError)
    (hresp : t ⟨pointsUrl coords, h.headers⟩ = .ok (.obj ds))
    (hprops : lookupField ds "properties" = .obj
      [("gridId", .str s1), ("gridX", gx), ("gridY", gy),
       ("forecast", .str s2), ("forecastHourly", .str s3), ("forecastGridData", .str s4)])
    (h1 : s1 ≠ "") (h2 : s2 ≠ "") (h3 : s3 ≠ "") (h4 : s4 ≠ "")
    (hgx : isNull gx = false) (hgy : isNull gy = false)
    (hint : pyInt gx = .error e) :
    h.points_metadata t coords = .error e := by
  unfold LocationHelper.points_metadata LocationHelper._get
  rw [hresp]
  unfold points_from_data
  simp only [pyGet, hprops]
  rw [if_pos (by simp [truthy])]
  simp [points_from_props, pyGet, lookupField, lookupLast, truthy,
    h1, h2, h3, h4, hgx, hgy, hint]

/-- Witness for the amended C8: `gridX = "abc"` propagates the raw
parse error of `int()`. -/
theorem points_metadata_coercion_unwrapped_witness :
    (LocationHelper.init none fun _ => none).points_metadata
        (fun _ => .ok (.obj [("properties", .obj
          [("gridId", .str "OKX"), ("gridX", .str "abc"), ("gridY", .intv 35),
           ("forecast", .str "https://a"), ("forecastHourly", .str "https://b"),
           ("forecastGridData", .str "https://c")])]))
        ⟨0, 0⟩ =
      .error ⟨"ValueError", "invalid literal for int with base 10: abc", none⟩ :=
  points_metadata_coercion_unwrapped _ _ ⟨0, 0⟩
    [("properties", .obj
      [("gridId", .str "OKX"), ("gridX", .str "abc"), ("gridY", .intv 35),
       ("forecast", .str "https://a"), ("forecastHourly", .str "https://b"),
       ("forecastGridData", .str "https://c")])]
    "OKX" "https://a" "https://b" "https://c" (.str "abc") (.intv 35)
    ⟨"ValueError", "invalid literal for int with base 10: abc", none⟩ rfl rfl
    (by decide) (by decide) (by decide) (by decide) rfl rfl rfl

/-- C10: a response whose top-level `properties` entry is entirely
absent or null is normalised to an empty dict and rejected with the
same incomplete-metadata error as a partially filled one — no crash on
the missing object. -/
theorem points_metadata_missing_properties (h : LocationHelper) (t : Transport)
    (coords : Coordinates) (ds : List (String × JValue))
    (hresp : t ⟨pointsUrl coords, h.headers⟩ = .ok (.obj ds))
    (habsent : lookupLast ds "properties" = none ∨ lookupLast ds "properties" = some .null) :
    h.points_metadata t coords = .error incompletePointsError := by
  have hfield : lookupField ds "properties" = .null := by
    rcases habsent with h1 | h1 <;> simp [lookupField, h1]
  unfold LocationHelper.points_metadata LocationHelper._get
  rw [hresp]
  unfold points_from_data
  simp only [pyGet, hfield]
  rw [if_neg (by simp [truthy])]
  simp [points_from_props, pyGet, lookupField, lookupLast, truthy, isNull]

/-- Witness for C10: a response with no `properties` at all. -/
theorem points_metadata_missing_properties_witness :
    (LocationHelper.init none fun _ => none).points_metadata
        (fun _ => .ok (.obj [("status", .intv 200)])) ⟨0, 0⟩ =
      .error incompletePointsError :=
  points_metadata_missing_properties _ _ ⟨0, 0⟩ [("status", .intv 200)] rfl (Or.inl rfl)

/-- C9 counterexample: the identification string resolution is by
Python truthiness, not by mere presence: an explicitly provided empty
string is skipped in favour of the environment value, so the resolved
header is not the provided argument. -/
theorem init_empty_user_agent_cex :
    (LocationHelper.init (some "")
        (fun k => if k = "WINDOW_WEATHER_USER_AGENT" then some "EnvAgent/1.0" else none)).headers =
      [("User-Agent", "EnvAgent/1.0"),
       ("Accept", "application/geo+json, application/json")] := rfl

/-- C9 amended: the identification header resolves to the constructor
argument when provided and non-empty, else to the environment value
when set and non-empty, else to the hardcoded fallback; and every
request any operation issues carries exactly the session headers fixed
at construction (so two transports agreeing on requests bearing those
headers are indistinguishable). -/
theorem init_header_resolution :
    (∀ (ua : String) (env : String → Option String), ua ≠ "" →
      (LocationHelper.init (some ua) env).headers =
        [("User-Agent", ua), ("Accept", "application/geo+json, application/json")]) ∧
    (∀ (ua? : Option String) (env : String → Option String) (v : String),
      (ua? = none ∨ ua? = some "") → env "WINDOW_WEATHER_USER_AGENT" = some v → v ≠ "" →
      (LocationHelper.init ua? env).headers =
        [("User-Agent", v), ("Accept", "application/geo+json, application/json")]) ∧
    (∀ (ua? : Option String) (env : String → Option String),
      (ua? = none ∨ ua? = some "") →
      (env "WINDOW_WEATHER_USER_AGENT" = none ∨ env "WINDOW_WEATHER_USER_AGENT" = some "") →
      (LocationHelper.init ua? env).headers =
        [("User-Agent", defaultUserAgent),
         ("Accept", "application/geo+json, application/json")]) ∧
    (∀ (h : LocationHelper) (t₁ t₂ : Transport) (z : String) (coords : Coordinates),
      (∀ url, t₁ ⟨url, h.headers⟩ = t₂ ⟨url, h.headers⟩) →
      h.zip_to_coordinates t₁ z = h.zip_to_coordinates t₂ z ∧
      h.points_metadata t₁ coords = h.points_metadata t₂ coords ∧
      h.resolve_zip_to_points t₁ z = h.resolve_zip_to_points t₂ z) := by
  refine ⟨?_, ?_, ?_, ?_⟩
  · intro ua env hua
    simp [LocationHelper.init, orStr, hua]
  · intro ua? env v hua henv hv
    rcases hua with h1 | h1 <;> subst h1 <;> simp [LocationHelper.init, orStr, henv, hv]
  · intro ua? env hua henv
    rcases hua with h1 | h1 <;> subst h1 <;> rcases henv with h2 | h2 <;>
      simp [LocationHelper.init, orStr, h2]
  · intro h t₁ t₂ z coords hagree
    have hzip : h.zip_to_coordinates t₁ z = h.zip_to_coordinates t₂ z := by
      unfold LocationHelper.zip_to_coordinates LocationHelper._get
      rw [hagree (zipUrl z)]
    have hpts : ∀ c : Coordinates, h.points_metadata t₁ c = h.points_metadata t₂ c := by
      intro c
      unfold LocationHelper.points_metadata LocationHelper._get
      rw [hagree (pointsUrl c)]
    refine ⟨hzip, hpts coords, ?_⟩
    unfold LocationHelper.resolve_zip_to_points
    rw [hzip]
    cases h.zip_to_coordinates t₂ z with
    | error e => rfl
    | ok c => exact hpts c

/-- Witness for the amended C9: the three resolution cases at concrete
values, and transport indistinguishability for a concrete helper. -/
theorem init_header_resolution_witness :
    ((LocationHelper.init (some "MyApp/2.0") fun _ => none).headers =
      [("User-Agent", "MyApp/2.0"), ("Accept", "application/geo+json, application/json")]) ∧
    ((LocationHelper.init none fun k =>
        if k = "WINDOW_WEATHER_USER_AGENT" then some "EnvAgent/1.0" else none).headers =
      [("User-Agent", "EnvAgent/1.0"),
       ("Accept", "application/geo+json, application/json")]) ∧
    ((LocationHelper.init none fun _ => none).headers =
      [("User-Agent", defaultUserAgent),
       ("Accept", "application/geo+json, application/json")]) ∧
    ((LocationHelper.init none fun _ => none).zip_to_coordinates
        (fun r => if r.headers = (LocationHelper.init none fun _ => none).headers then
          .ok (.obj []) else .error ⟨"TransportError", "probe", none⟩) "10001" =
      (LocationHelper.init none fun _ => none).zip_to_coordinates
        (fun _ => .ok (.obj [])) "10001") :=
  ⟨init_header_resolution.1 "MyApp/2.0" _ (by decide),
   init_header_resolution.2.1 none _ "EnvAgent/1.0" (Or.inl rfl) rfl (by decide),
   init_header_resolution.2.2.1 none _ (Or.inl rfl) (Or.inl rfl),
   ((init_header_resolution.2.2.2 (LocationHelper.init none fun _ => none) _ _ "10001"
      ⟨0, 0⟩ (fun _ => by simp)).1)⟩

end WindowWeather
